import Mathlib

set_option maxRecDepth 100000

/-!
# Verification of the Hooke's Law reactive spring model

This file embeds the model layer of the hookes-law simulation
(`Spring`, `RoboticArm`, `SeriesSystem`) in Lean 4 and proves / refutes the
frozen claims about it.

Embedding notes.

* All physical quantities are JavaScript doubles in the source; we embed them
  as `ℚ`, which is exact on every concrete value appearing in the scenarios
  (all concrete numbers in the claims are small decimals, and the dynamics is
  field arithmetic plus `Math.round`).  `Math.round x` in JavaScript is
  `⌊x + 1/2⌋` on finite inputs, embedded as `jsRound`.
* An axon `Property` stores a value and a list of listeners; `set v` stores
  `v` and, only if `v` differs from the previous value, synchronously invokes
  every listener in subscription order with the newly stored value; `link f`
  additionally invokes `f` once immediately at registration time.
  `DerivedProperty` recomputes from the current dependency values whenever a
  dependency notifies, and notifies its own listeners only when its value
  changed.  The axon library itself is not part of this repository's sources;
  those semantics are taken from the specification (§4.1–§4.3) and are the
  standard axon contract.
* Derived properties of a `Spring` (`springForce`, `equilibriumX`, `right`,
  `rightRange`, `length`, `energy`) have no listeners that write back into
  primary cells, so they are embedded as plain functions of the primary state
  rather than as state components.
* Propagation is synchronous, depth first, and re-entrant in the source, so
  the interpreters are written with an explicit fuel; `none` means the fuel
  ran out, which never occurs in the scenarios or under the proved
  hypotheses of the single-spring claims, and which is exactly the point of
  the divergence theorems about `SeriesSystem` construction at the end of
  the file.
* `SeriesSystem.js` itself cannot complete construction in this snapshot:
  line 63 reads the nonexistent field `this.leftSpring.left` (`undefined`),
  which poisons the equivalent spring's equilibrium position to `NaN` and
  sends the construction-time firing of the robotic-arm link into an
  unbounded `NaN` rewrite loop under axon's `===` change test.  The claims
  about the series system are settled against a faithful embedding of that
  defective execution (`eqRun` below), not against an invented completed
  construction.
-/

/-- JavaScript `Math.round` on finite numbers: round half toward plus
infinity. -/
def jsRound (q : ℚ) : ℤ := ⌊q + 1/2⌋

/-- `DOT/Range.constrainValue`: `Math.min( Math.max( value, this.min ), this.max )`. -/
def constrainValue (lo hi v : ℚ) : ℚ := min (max v lo) hi

/-!
## Single spring (src/unnamed/part_001, `Spring`)

Primary cells: `appliedForceProperty` (F), `springConstantProperty` (k),
`displacementProperty` (x), `leftProperty`.

Configuration recorded at construction time (lines 92–129 of the source):
`equilibriumLength`, `springConstantRange`, `appliedForceDelta`, and exactly
one of `appliedForceRange` / `displacementRange`, the other being computed
(`x = F/k` from the minimum spring constant, resp. `F = kx` from the maximum
spring constant).  The flag `forceDriven` records whether
`options.appliedForceRange` was supplied.
-/

structure SpringCfg where
  forceDriven : Bool
  delta : ℚ
  Fmin : ℚ
  Fmax : ℚ
  Fdef : ℚ
  kmin : ℚ
  kmax : ℚ
  kdef : ℚ
  xmin : ℚ
  xmax : ℚ
  xdef : ℚ
  eqLen : ℚ
  left0 : ℚ
  deriving DecidableEq, Repr

/-- Quantization of the applied force performed by the displacement observer
in force-driven mode (source line 234):
`Math.round( appliedForce / delta ) * delta`. -/
def SpringCfg.quantize (c : SpringCfg) (q : ℚ) : ℚ :=
  (jsRound (q / c.delta) : ℚ) * c.delta

/-- Clamp into the applied-force range (source line 237). -/
def SpringCfg.constrainF (c : SpringCfg) (q : ℚ) : ℚ :=
  constrainValue c.Fmin c.Fmax q

/-- The value the displacement observer (source lines 229–238) writes to the
applied-force cell when the displacement changes to `x`: `F = k·x`, quantized
to the delta only in force-driven mode, then always clamped into the
applied-force range. -/
def SpringCfg.forceOnDisplacement (c : SpringCfg) (k x : ℚ) : ℚ :=
  c.constrainF (if c.forceDriven then c.quantize (k * x) else k * x)

structure SpringState where
  F : ℚ
  k : ℚ
  x : ℚ
  left : ℚ
  deriving DecidableEq, Repr

/-- Derived cell `equilibriumXProperty = left + equilibriumLength` (line 158). -/
def SpringState.eqX (c : SpringCfg) (s : SpringState) : ℚ := s.left + c.eqLen

/-- Derived cell `rightProperty = equilibriumX + displacement` (line 164). -/
def SpringState.right (c : SpringCfg) (s : SpringState) : ℚ :=
  SpringState.eqX c s + s.x

inductive SpringCell where
  | appliedForce
  | springConstant
  | displacement
  | leftEnd
  deriving DecidableEq, Repr

/--
One `Property.set` on a primary cell of a standalone `Spring`, including the
synchronous propagation performed by the three property observers
(source lines 209–238):

* `appliedForceProperty.link` (line 210): on an applied-force change,
  `displacement := appliedForce / springConstant` (argument force, current k);
* `springConstantProperty.link` (line 216): on a spring-constant change, in
  force-driven mode `displacement := appliedForce / springConstant`, else
  `appliedForce := springConstant * displacement` (argument k, current F / x);
* `displacementProperty.link` (line 229): on a displacement change,
  `appliedForce := constrain (quantizeIfForceDriven (k * displacement))`
  (current k, argument displacement).

A set whose value equals the stored value notifies nobody.  The derived
properties attached to these cells recompute but have no listeners of their
own that write primary cells, so they do not appear here.  Fuel `0` yields
`none` (propagation budget exhausted).
-/
def sset (c : SpringCfg) : ℕ → SpringCell → ℚ → SpringState → Option SpringState
  | 0, _, _, _ => none
  | n + 1, cell, v, s =>
    match cell with
    | .appliedForce =>
        if v = s.F then some s
        else
          let s1 : SpringState := { s with F := v }
          sset c n .displacement (v / s1.k) s1
    | .springConstant =>
        if v = s.k then some s
        else
          let s1 : SpringState := { s with k := v }
          if c.forceDriven then sset c n .displacement (s1.F / v) s1
          else sset c n .appliedForce (v * s1.x) s1
    | .displacement =>
        if v = s.x then some s
        else
          let s1 : SpringState := { s with x := v }
          sset c n .appliedForce (c.forceOnDisplacement s1.k v) s1
    | .leftEnd =>
        if v = s.left then some s
        else some { s with left := v }

/--
Construction of a `Spring` (source lines 131–239).  The four primary
properties start at the configured defaults; then the three observers are
attached with `link`, each firing once immediately at attachment time:

* the applied-force observer fires first (line 210); at that moment the
  displacement observer is not yet attached, so its write
  `displacement := F/k` propagates nowhere;
* the spring-constant observer fires next (line 216); in force-driven mode
  its write to the displacement again propagates nowhere, and in
  displacement-driven mode its write to the applied force is seen by the
  already-attached applied-force observer, whose own displacement write
  propagates nowhere;
* the displacement observer fires last (line 229) with the then-current
  displacement; from that point the full observer network is active, so its
  write to the applied force is an ordinary propagating `set`.
-/
def springInit (c : SpringCfg) : Option SpringState :=
  let s0 : SpringState := ⟨c.Fdef, c.kdef, c.xdef, c.left0⟩
  let s1 : SpringState := { s0 with x := s0.F / s0.k }
  let s2 : SpringState :=
    if c.forceDriven then { s1 with x := s1.F / s1.k }
    else
      if s1.k * s1.x = s1.F then s1
      else
        let sa : SpringState := { s1 with F := s1.k * s1.x }
        { sa with x := sa.F / sa.k }
  sset c 9 .appliedForce (c.forceOnDisplacement s2.k s2.x) s2

/-- External writes offered by the model API: `set()` on one of the four
primary cells. -/
inductive SOp where
  | setF (v : ℚ)
  | setK (v : ℚ)
  | setX (v : ℚ)
  | setL (v : ℚ)
  deriving DecidableEq, Repr

/-- One external `set()` call, with a propagation budget that is ample for
every settling chain of a standalone spring (no chain is deeper than 5). -/
def applyOp (c : SpringCfg) (op : SOp) (s : SpringState) : Option SpringState :=
  match op with
  | .setF v => sset c 9 .appliedForce v s
  | .setK v => sset c 9 .springConstant v s
  | .setX v => sset c 9 .displacement v s
  | .setL v => sset c 9 .leftEnd v s

/-- A finite sequence of external `set()` calls, each settling before the
next is issued. -/
def runOps (c : SpringCfg) : List SOp → SpringState → Option SpringState
  | [], s => some s
  | op :: ops, s =>
    match applyOp c op s with
    | some s1 => runOps c ops s1
    | none => none

/-- The spring of the Introduction screen and of the concrete scenario in the
specification: force driven, `springConstantRange = [100,1000] @ 200`,
`appliedForceRange = [-10,10] @ 0`, `equilibriumLength = 1.5`, `left = 0`,
`appliedForceDelta = 1` (HookesLawConstants.APPLIED_FORCE_DELTA).  The
displacement range is computed as on source lines 118–120:
`[-10/100, 10/100] @ 0/200`. -/
def introCfg : SpringCfg :=
  { forceDriven := true
    delta := 1
    Fmin := -10, Fmax := 10, Fdef := 0
    kmin := 100, kmax := 1000, kdef := 200
    xmin := -10/100, xmax := 10/100, xdef := 0/200
    eqLen := 3/2
    left0 := 0 }


/-!
## Robotic arm (src/unnamed/part_001, `RoboticArm`, lines 20–46)

The arm owns a single `NumberProperty` for its movable left end; the right
end is a plain construction-time constant.  The validity predicate supplied
to the property is `value < self.right` (source line 35).
-/

structure ArmState where
  right : ℚ
  left : ℚ
  deriving DecidableEq, Repr

/-- Validity predicate of `RoboticArm.leftProperty` (source line 35):
`function( value ) { return value < self.right; }`. -/
def ArmState.isValidLeft (a : ArmState) (v : ℚ) : Bool := v < a.right

/-- Modelled from the spec: the `set`/validation mechanics of the axon
`NumberProperty` are not part of this repository's sources (only the validity
predicate is, line 35).  Per specification §4.1, `set(v)` fails with
`InvalidValueError` when the supplied validity predicate rejects `v`, leaving
the stored value unchanged; otherwise it stores `v`.  The returned pair is
(success flag, resulting arm state); `get()` is the `left` field. -/
def armSetLeft (a : ArmState) (v : ℚ) : Bool × ArmState :=
  if a.isValidLeft v then (true, { a with left := v }) else (false, a)

/-!
## Claim-side update rules and configurations used to settle the claims
-/

/-- The applied-force update rule asserted by claim C4: recompute `k·x`, and
(exactly when the spring is force-driven) round it to the nearest integer
multiple of the delta and then clamp it into the applied-force range.  In
particular this rule writes the raw product `k·x` for a displacement-driven
spring.  Written from the claim's words, for comparison with the source rule
`SpringCfg.forceOnDisplacement`. -/
def claimedForceOnDisplacement (c : SpringCfg) (k x : ℚ) : ℚ :=
  if c.forceDriven then
    constrainValue c.Fmin c.Fmax ((jsRound (k * x / c.delta) : ℚ) * c.delta)
  else k * x

/-- The amended applied-force update rule: recompute `k·x`, round it to the
nearest integer multiple of the delta exactly when the spring is
force-driven, and in every mode clamp the result into the applied-force
range before writing it.  Written from the amended claim's words. -/
def amendedForceOnDisplacement (c : SpringCfg) (k x : ℚ) : ℚ :=
  constrainValue c.Fmin c.Fmax
    (if c.forceDriven then (jsRound (k * x / c.delta) : ℚ) * c.delta else k * x)

/-- A displacement-driven configuration on which the unconditional clamp of
source line 237 is observable: `springConstantRange = [100,200] @ 200`,
`displacementRange = [1,2] @ 1`, hence (source lines 126–128) computed
`appliedForceRange = [200·1, 200·2] @ 200·1 = [200,400] @ 200`. -/
def ddCfg : SpringCfg :=
  { forceDriven := false
    delta := 1
    Fmin := 200, Fmax := 400, Fdef := 200
    kmin := 100, kmax := 200, kdef := 200
    xmin := 1, xmax := 2, xdef := 1
    eqLen := 3/2
    left0 := 0 }

/-- A force-driven configuration whose default applied force `1/2` is not a
fixed point of quantize-then-clamp (delta 1): used to refute claim C8.
Computed displacement range per source lines 118–120:
`[-10/100, 10/100] @ (1/2)/100`. -/
def c8cfg : SpringCfg :=
  { forceDriven := true
    delta := 1
    Fmin := -10, Fmax := 10, Fdef := 1/2
    kmin := 100, kmax := 1000, kdef := 100
    xmin := -10/100, xmax := 10/100, xdef := (1/2)/100
    eqLen := 3/2
    left0 := 0 }

/-- `Spring.reset` (source lines 246–251): reset the four primary properties
in source order — applied force, spring constant, displacement, left — each
through the ordinary propagating `set()` path with the construction-time
default as value. -/
def springReset (c : SpringCfg) (s : SpringState) : Option SpringState :=
  (sset c 9 .appliedForce c.Fdef s).bind fun s1 =>
    (sset c 9 .springConstant c.kdef s1).bind fun s2 =>
      (sset c 9 .displacement c.xdef s2).bind fun s3 =>
        sset c 9 .leftEnd c.left0 s3

/-- An external write that only touches the spring constant, with a nonzero
value (claim C5). -/
def isKSetOp : SOp → Bool
  | .setK v => v ≠ 0
  | _ => false

/-!
## SeriesSystem construction (src/js/systems/model/SeriesSystem.js): a defect

`SeriesSystem` constructs its equivalent spring (lines 62–70) with
`left: this.leftSpring.left`.  The 2015 `Spring` stores its left end only in
`leftProperty` and defines no `left` field, so the expression evaluates to
`undefined`; lodash `extend` copies the explicit `undefined` over the option
default `0`, the equivalent spring's `leftProperty` holds `undefined`, and
its derived `equilibriumXProperty` computes `undefined + 1.5 = NaN`.  The
construction then proceeds: the line 77 and line 83–89 link firings are
finite, but the robotic-arm link of line 93 fires immediately when
installed, and its guarded body writes
`roboticArm.left − equilibriumX = 1.5 − NaN = NaN` into
`equivalentSpring.displacementProperty`.  The axon change test is `===`, and
`NaN === NaN` is false, so every rewrite of a `NaN`-holding cell counts as a
change: the displacement observer (part_001 line 229) writes
`NaN` to the force cell, whose observer (line 210) writes `NaN` back to the
displacement cell, and so on without end — `new SeriesSystem()` never
returns, the `lazyLink` guards of lines 114–122 are never installed, and no
post-construction state of the series system exists.

The embedding below covers exactly the two cells this loop runs through.
A JavaScript number is either finite (`some q`) or `NaN` (`none`);
arithmetic, `Math.round` and `Math.min`/`Math.max` propagate `NaN`, and
`jsSame` is the `===` change test, false on `NaN` compared with anything,
itself included.  (`undefined` itself never reaches a change test — only
its `NaN` arithmetic image propagates — so one poison value suffices.)
`eqRun` is the propagation through the equivalent spring's displacement and
force cells: the displacement observer quantizes with delta `1` and clamps
into `[-100, 100]` using the spring constant current at that moment (`100`),
and the force observer divides by it.  The other listeners of these two
cells either write no primary cell (derived recomputations) or follow the
diverging observer in subscription order (the line 77 link follows the
line 210 observer) and are never reached on this execution.
-/

/-- JavaScript addition with `NaN` (`none`) propagation.  `undefined + x` is
also `NaN`, so the poisoned left end enters here as `none`. -/
def jvAdd : Option ℚ → Option ℚ → Option ℚ
  | some a, some b => some (a + b)
  | _, _ => none

/-- JavaScript subtraction with `NaN` propagation. -/
def jvSub : Option ℚ → Option ℚ → Option ℚ
  | some a, some b => some (a - b)
  | _, _ => none

/-- JavaScript multiplication with `NaN` propagation. -/
def jvMul : Option ℚ → Option ℚ → Option ℚ
  | some a, some b => some (a * b)
  | _, _ => none

/-- JavaScript division with `NaN` propagation.  Division by zero yields an
infinite value, conservatively poisoned here; no division by zero occurs in
the modelled execution (the divisor is the spring constant `100`). -/
def jvDiv : Option ℚ → Option ℚ → Option ℚ
  | some a, some b => if b = 0 then none else some (a / b)
  | _, _ => none

/-- The displacement observer's force computation for the equivalent spring
at construction time (part_001 lines 231–237 with spring constant `100`
already multiplied in by the caller): `Math.round` to the delta `1`, then
clamp into the applied-force range `[-100, 100]`.  `Math.round NaN = NaN`
and `Math.min`/`Math.max` with `NaN` give `NaN`. -/
def jvQuantClamp : Option ℚ → Option ℚ
  | some q => some (constrainValue (-100) 100 ((jsRound (q / 1) : ℚ) * 1))
  | none => none

/-- The `===` change test of the axon `Property.set`: true only on two equal
finite numbers; `NaN === NaN` is false. -/
def jsSame : Option ℚ → Option ℚ → Bool
  | some a, some b => decide (a = b)
  | _, _ => false

/-- The two cells of the equivalent spring through which the construction-time
firing of the robotic-arm link propagates. -/
inductive EqCell where
  | displacementCell
  | forceCell
  deriving DecidableEq, Repr

structure EqSt where
  xeq : Option ℚ
  Feq : Option ℚ
  deriving DecidableEq, Repr

/-- One `Property.set` of value `v` on a cell of the equivalent spring
during `SeriesSystem` construction, with propagation and fuel: a set whose
value is the same (`===`) as the stored one notifies nobody; otherwise the
displacement observer (part_001 line 229) writes the quantized and clamped
`100 · x` to the force cell, and the force observer (line 210) writes
`F / 100` to the displacement cell.  `none` is exhausted fuel. -/
def eqRun : ℕ → EqCell → Option ℚ → EqSt → Option EqSt
  | 0, _, _, _ => none
  | n + 1, c, v, s =>
    match c with
    | .displacementCell =>
        if jsSame v s.xeq then some s
        else eqRun n .forceCell (jvQuantClamp (jvMul (some 100) v)) { s with xeq := v }
    | .forceCell =>
        if jsSame v s.Feq then some s
        else eqRun n .displacementCell (jvDiv v (some 100)) { s with Feq := v }

/-!
## Theorems
-/

/-- A `NaN` set on either equivalent-spring cell never settles: the `===`
change test treats `NaN` as different from everything, itself included, so
the displacement and force observers rewrite each other forever and exhaust
any propagation budget. -/
theorem eqRun_nan_diverges :
    ∀ (n : ℕ) (c : EqCell) (s : EqSt), eqRun n c none s = none := by
  intro n
  induction n with
  | zero => intro c s; rfl
  | succ n ih =>
      intro c s
      cases c <;>
        simp only [eqRun, jsSame, jvMul, jvQuantClamp, jvDiv, Bool.false_eq_true,
          if_false] <;>
        exact ih _ _

/-- C2.  The claim quantifies over the reachable settled states of a
`SeriesSystem`, but the source has none: construction itself diverges.  The
equivalent spring's left end is the nonexistent `this.leftSpring.left`
(line 63), so its equilibrium position is `NaN`, and the construction-time
firing of the robotic-arm link (line 93) writes
`1.5 − (undefined + 1.5) = NaN` into the equivalent displacement from the
pre-firing cell values `(xeq, Feq) = (0, 0)` — a propagation that exhausts
every fuel, so `new SeriesSystem()` never returns and no settled state
exists to compare against `Feq = F1 = F2`, `keq = 1/(1/k1+1/k2)`,
`xeq = x1 + x2`. -/
theorem C2_construction_divergence :
    ∀ n : ℕ,
      eqRun n .displacementCell (jvSub (some (3/2)) (jvAdd none (some (3/2))))
        ⟨some 0, some 0⟩ = none := by
  intro n
  exact eqRun_nan_diverges n .displacementCell ⟨some 0, some 0⟩

/-- C6.  The claim is about the throwing `lazyLink` guards on
`equivalentSpring.left` and `equivalentSpring.equilibriumX`, installed on
source lines 114–124 — but those lines are never executed: the robotic-arm
link installed earlier (line 93) fires at installation time and its
`NaN` write into the equivalent displacement diverges from every possible
cell state, so construction never reaches the guards and no external write
to the anchors can ever occur, let alone raise and roll back. -/
theorem C6_construction_divergence :
    jvAdd none (some (3/2)) = none ∧
    ∀ (n : ℕ) (s : EqSt),
      eqRun n .displacementCell (jvSub (some (3/2)) (jvAdd none (some (3/2))))
        s = none :=
  ⟨rfl, fun n s => eqRun_nan_diverges n .displacementCell s⟩

/-- C7.  The claim is about moving the robotic arm of a constructed
`SeriesSystem`; no such system exists.  The very handler the claim
describes (lines 93–100) is the one that diverges at construction: once the
equivalent equilibrium position is `NaN` (the `undefined` left end of line
63), the guarded body's write into the equivalent displacement never
returns, whatever the cells hold. -/
theorem C7_construction_divergence :
    ∀ (n : ℕ) (s : EqSt), eqRun n .displacementCell none s = none :=
  fun n s => eqRun_nan_diverges n .displacementCell s

/-- C10.  The claim is about the settled positions (`rightSpring.left =
leftSpring.right`, `roboticArm.left = rightSpring.right`) and the quantized
arm position after an external move; the source reaches no settled state at
all.  The force half of the construction-time `NaN` loop: a `NaN` write to
the equivalent force cell never settles either, whatever the cells hold. -/
theorem C10_construction_divergence :
    ∀ (n : ℕ) (s : EqSt), eqRun n .forceCell none s = none :=
  fun n s => eqRun_nan_diverges n .forceCell s


/-- C3.  For the force-driven spring with `springConstantRange=[100,1000]@200`,
`appliedForceRange=[-10,10]@0`, `equilibriumLength=1.5`, `left=0` (and the
default `appliedForceDelta = 1`): construction settles at
`(F,k,x) = (0,200,0)`; setting `appliedForce = 10` settles at displacement
`0.05` with `right = 1.55`; then setting `springConstant = 500` settles at
displacement `0.02` with the applied force still `10`. -/
theorem C3_concrete_scenario :
    springInit introCfg = some ⟨0, 200, 0, 0⟩ ∧
    sset introCfg 9 .appliedForce 10 ⟨0, 200, 0, 0⟩ =
      some ⟨10, 200, 1/20, 0⟩ ∧
    SpringState.right introCfg ⟨10, 200, 1/20, 0⟩ = 31/20 ∧
    sset introCfg 9 .springConstant 500 ⟨10, 200, 1/20, 0⟩ =
      some ⟨10, 500, 1/50, 0⟩ ∧
    (1/20 : ℚ) = 5/100 ∧ (31/20 : ℚ) = 155/100 ∧ (1/50 : ℚ) = 2/100 := by
  with_unfolding_all decide

/-- C4, counterexample.  On the displacement-driven configuration `ddCfg`,
from the valid state `(F,k,x) = (200,100,2)`, the external displacement
change to `1` makes the displacement observer write
`constrainValue 200 400 (100·1) = 200` to the applied-force cell — the
clamp of source line 237 applies in displacement-driven mode too — so the
spring settles at force `200`, whereas the rule asserted by the claim
(clamping only when force-driven) writes the raw product `100·1 = 100` and
would settle at force `100`. -/
theorem C4_counterexample :
    sset ddCfg 9 .displacement 1 ⟨200, 100, 2, 0⟩ = some ⟨200, 100, 1, 0⟩ ∧
    SpringCfg.forceOnDisplacement ddCfg 100 1 = 200 ∧
    claimedForceOnDisplacement ddCfg 100 1 = 100 ∧
    ((200 : ℚ) ≠ 100) := by
  with_unfolding_all decide

/-- C4, amended.  When the displacement cell changes to `x`, the spring
writes to the applied-force cell exactly
`clamp (if forceDriven then roundToDelta (k·x) else k·x)`: the recomputed
force `k·x` is rounded to the nearest integer multiple of the delta exactly
when the spring is force-driven, and is clamped into the applied-force range
in both modes, rounding before clamping. -/
theorem C4_amended :
    ∀ c : SpringCfg,
      (∀ k x : ℚ, SpringCfg.forceOnDisplacement c k x =
        amendedForceOnDisplacement c k x) ∧
      (∀ (n : ℕ) (v : ℚ) (s : SpringState), v ≠ s.x →
        sset c (n + 1) .displacement v s =
          sset c n .appliedForce (amendedForceOnDisplacement c s.k v)
            { s with x := v }) := by
  intro c
  constructor
  · intro k x
    unfold SpringCfg.forceOnDisplacement amendedForceOnDisplacement
      SpringCfg.constrainF SpringCfg.quantize
    cases c.forceDriven <;> simp
  · intro n v s hv
    rcases c4 : c.forceDriven with _ | _ <;>
      simp [sset, hv, amendedForceOnDisplacement, SpringCfg.forceOnDisplacement,
        SpringCfg.constrainF, SpringCfg.quantize, c4]

/-- C4, witness: the amended rule applied on the intro spring at the
displacement change `0 → 1/100`. -/
theorem C4_witness :
    SpringCfg.forceOnDisplacement introCfg 200 (1/100) =
      amendedForceOnDisplacement introCfg 200 (1/100) ∧
    ((1/100 : ℚ) ≠ 0) ∧
    sset introCfg 9 .displacement (1/100) ⟨0, 200, 0, 0⟩ =
      sset introCfg 8 .appliedForce
        (amendedForceOnDisplacement introCfg 200 (1/100)) ⟨0, 200, 1/100, 0⟩ := by
  refine ⟨(C4_amended introCfg).1 200 (1/100), by with_unfolding_all decide, ?_⟩
  exact (C4_amended introCfg).2 8 (1/100) ⟨0, 200, 0, 0⟩ (by with_unfolding_all decide)

/-- C9.  A `set(v)` on the robotic arm's left cell fails exactly when
`v ≥ right` (the validity predicate is the strict `v < right`, source line
35); a failed set leaves the stored value unchanged, and a successful set
stores `v` (so `get()` always returns the last accepted value). -/
theorem C9_arm_validation :
    ∀ r l v : ℚ,
      ((armSetLeft ⟨r, l⟩ v).1 = false ↔ r ≤ v) ∧
      ((armSetLeft ⟨r, l⟩ v).1 = false → (armSetLeft ⟨r, l⟩ v).2 = ⟨r, l⟩) ∧
      (v < r → (armSetLeft ⟨r, l⟩ v).2 = ⟨r, v⟩) := by
  intro r l v
  refine ⟨⟨?_, ?_⟩, ?_, ?_⟩
  · intro hf
    by_contra hlt
    push_neg at hlt
    simp [armSetLeft, ArmState.isValidLeft, hlt] at hf
  · intro hle
    have h : ¬ v < r := not_lt.mpr hle
    simp [armSetLeft, ArmState.isValidLeft, h]
  · intro hf
    by_cases h : v < r
    · simp [armSetLeft, ArmState.isValidLeft, h] at hf
    · simp [armSetLeft, ArmState.isValidLeft, h]
  · intro hlt
    simp [armSetLeft, ArmState.isValidLeft, hlt]

/-- C9, witness: on an arm with fixed right end `3` holding `1`, the write
`5` fails and leaves the value `1`, and the write `2` succeeds. -/
theorem C9_witness :
    ((armSetLeft ⟨3, 1⟩ 5).1 = false ↔ (3 : ℚ) ≤ 5) ∧
    ((armSetLeft ⟨3, 1⟩ 5).1 = false → (armSetLeft ⟨3, 1⟩ 5).2 = ⟨3, 1⟩) ∧
    ((5 : ℚ) < 3 → (armSetLeft ⟨3, 1⟩ 5).2 = ⟨3, 5⟩) ∧
    ((2 : ℚ) < 3 → (armSetLeft ⟨3, 1⟩ 2).2 = ⟨3, 2⟩) := by
  refine ⟨(C9_arm_validation 3 1 5).1, (C9_arm_validation 3 1 5).2.1,
    (C9_arm_validation 3 1 5).2.2, (C9_arm_validation 3 1 2).2.2⟩

/-- Clamping a value already inside the applied-force range is the
identity. -/
theorem constrainF_id (c : SpringCfg) (v : ℚ) (h1 : c.Fmin ≤ v)
    (h2 : v ≤ c.Fmax) : c.constrainF v = v := by
  unfold SpringCfg.constrainF constrainValue
  rw [max_eq_left h1, min_eq_left h2]

/-- On a force-driven spring, the displacement observer applied to the
displacement `v / k` writes the quantized-and-clamped `v`. -/
theorem foD_fd (c : SpringCfg) (k v : ℚ) (hfd : c.forceDriven = true)
    (hk : k ≠ 0) :
    c.forceOnDisplacement k (v / k) = c.constrainF (c.quantize v) := by
  unfold SpringCfg.forceOnDisplacement
  rw [hfd, if_pos rfl, mul_div_cancel₀ v hk]

/-- On a displacement-driven spring, the displacement observer applied to
the displacement `v / k` writes the clamped `v`. -/
theorem foD_dd (c : SpringCfg) (k v : ℚ) (hfd : c.forceDriven = false)
    (hk : k ≠ 0) :
    c.forceOnDisplacement k (v / k) = c.constrainF v := by
  unfold SpringCfg.forceOnDisplacement
  rw [hfd, mul_div_cancel₀ v hk]
  simp

/-- An external applied-force write whose round-tripped rewrite through the
displacement observer reproduces itself settles in one bounce: the force
cell holds `v`, the spring constant and left end are untouched, and the
displacement either was left alone (only when the write was a no-op) or has
been recomputed to `v / k`. -/
theorem sset_F_settle (c : SpringCfg) (s : SpringState) (v : ℚ)
    (h : c.forceOnDisplacement s.k (v / s.k) = v) :
    ∃ x', sset c 9 .appliedForce v s = some ⟨v, s.k, x', s.left⟩ ∧
      ((v = s.F ∧ x' = s.x) ∨ x' = v / s.k) := by
  by_cases hvF : v = s.F
  · refine ⟨s.x, ?_, Or.inl ⟨hvF, rfl⟩⟩
    simp only [sset, if_pos hvF]
    subst hvF
    rfl
  · refine ⟨v / s.k, ?_, Or.inr rfl⟩
    simp only [sset, if_neg hvF]
    by_cases hx : v / s.k = s.x
    · simp only [sset, if_pos hx]
      rw [← hx]
    · simp only [sset, if_neg hx, h, if_pos rfl, if_true]

/-- A nonzero spring-constant write on a force-driven spring whose stored
force is reproduced by the displacement observer settles with the force
untouched and the displacement either left alone (no-op write) or
recomputed to `F / v`. -/
theorem sset_k_settle_fd (c : SpringCfg) (s : SpringState) (v : ℚ)
    (hfd : c.forceDriven = true)
    (h : c.forceOnDisplacement v (s.F / v) = s.F) :
    ∃ x', sset c 9 .springConstant v s = some ⟨s.F, v, x', s.left⟩ ∧
      ((v = s.k ∧ x' = s.x) ∨ x' = s.F / v) := by
  by_cases hvk : v = s.k
  · refine ⟨s.x, ?_, Or.inl ⟨hvk, rfl⟩⟩
    simp only [sset, if_pos hvk]
    subst hvk
    rfl
  · refine ⟨s.F / v, ?_, Or.inr rfl⟩
    simp only [sset, if_neg hvk, hfd, if_true]
    by_cases hx : s.F / v = s.x
    · simp only [sset, if_pos hx]
      rw [← hx]
    · simp only [sset, if_neg hx, h, if_pos rfl, if_true]

/-- A nonzero spring-constant write on a displacement-driven spring settles
with the displacement untouched and the force either left alone (no-op
write) or recomputed to `v · x`. -/
theorem sset_k_settle_dd (c : SpringCfg) (s : SpringState) (v : ℚ)
    (hfd : c.forceDriven = false) (hv : v ≠ 0) :
    ∃ F', sset c 9 .springConstant v s = some ⟨F', v, s.x, s.left⟩ ∧
      ((v = s.k ∧ F' = s.F) ∨ F' = v * s.x) := by
  by_cases hvk : v = s.k
  · refine ⟨s.F, ?_, Or.inl ⟨hvk, rfl⟩⟩
    simp only [sset, if_pos hvk]
    subst hvk
    rfl
  · refine ⟨v * s.x, ?_, Or.inr rfl⟩
    simp only [sset, if_neg hvk, hfd, Bool.false_eq_true, if_false]
    by_cases hF : v * s.x = s.F
    · simp only [sset, if_pos hF]
      rw [← hF]
    · simp only [sset, if_neg hF, mul_div_cancel_left₀ _ hv, if_pos rfl, if_true]

/-- A displacement write whose observer rewrite reproduces the stored force
settles immediately: only the displacement cell changes. -/
theorem sset_x_settle (c : SpringCfg) (s : SpringState) (v : ℚ)
    (h : c.forceOnDisplacement s.k v = s.F) :
    sset c 9 .displacement v s = some ⟨s.F, s.k, v, s.left⟩ := by
  by_cases hvx : v = s.x
  · simp only [sset, if_pos hvx]
    subst hvx
    rfl
  · simp only [sset, if_neg hvx, h, if_pos rfl, if_true]

/-- An in-range displacement write on a displacement-driven spring settles
with the spring constant untouched, the displacement `v`, and the force
either left alone (no-op write) or recomputed to `k · v`. -/
theorem sset_x_settle_dd (c : SpringCfg) (s : SpringState) (v : ℚ)
    (hfd : c.forceDriven = false) (hk : s.k ≠ 0)
    (hr : c.constrainF (s.k * v) = s.k * v) :
    ∃ F', sset c 9 .displacement v s = some ⟨F', s.k, v, s.left⟩ ∧
      ((v = s.x ∧ F' = s.F) ∨ F' = s.k * v) := by
  by_cases hvx : v = s.x
  · refine ⟨s.F, ?_, Or.inl ⟨hvx, rfl⟩⟩
    simp only [sset, if_pos hvx]
    subst hvx
    rfl
  · refine ⟨s.k * v, ?_, Or.inr rfl⟩
    have hfod : c.forceOnDisplacement s.k v = s.k * v := by
      unfold SpringCfg.forceOnDisplacement
      rw [hfd]
      simpa using hr
    simp only [sset, if_neg hvx, hfod]
    by_cases hF : s.k * v = s.F
    · simp only [if_pos hF]
      rw [← hF]
    · simp only [if_neg hF, sset, mul_div_cancel_left₀ _ hk, if_pos rfl, if_true]

/-- A left-end write settles immediately: the left cell has no observer that
writes any primary cell. -/
theorem sset_left_any (c : SpringCfg) (s : SpringState) (v : ℚ) :
    sset c 9 .leftEnd v s = some ⟨s.F, s.k, s.x, v⟩ := by
  by_cases hv : v = s.left
  · simp only [sset, if_pos hv]
    subst hv
    rfl
  · simp only [sset, if_neg hv]

/-- C5, counterexample.  A spring-constant-only write can change the stored
applied force of a force-driven spring.  On the intro spring, the valid
in-range writes `x := 0.002; F := 0.4` each settle quietly (the first is
absorbed by the quantizer, the second finds the displacement already at
`0.4/200 = 1/500` so nothing further fires), reaching the settled state
`(F,k,x) = (0.4, 200, 1/500)` with the applied force never written
afterwards.  The single spring-constant write `k := 400` then settles at
`(0, 400, 0)`: the displacement observer re-quantizes
`round(400 · (0.4/400)) = round(0.4) = 0` and rewrites the force from
`0.4` to `0`, refuting the frozen claim that spring-constant-only sequences
leave `appliedForce` unchanged. -/
theorem C5_counterexample :
    springInit introCfg = some ⟨0, 200, 0, 0⟩ ∧
    runOps introCfg [SOp.setX (2/1000), SOp.setF (2/5)] ⟨0, 200, 0, 0⟩ =
      some ⟨2/5, 200, 1/500, 0⟩ ∧
    runOps introCfg [SOp.setK 400] ⟨2/5, 200, 1/500, 0⟩ =
      some ⟨0, 400, 0, 0⟩ ∧
    ((2/5 : ℚ) ≠ 0) := by
  with_unfolding_all decide

/-- C5, amended.  Mode invariance holds from a quantizer-stable settled
state: on a force-driven spring whose stored applied force is a fixed point
of quantize-then-clamp — the situation after construction and after every
settle of a delta-aligned force write, though not after an arbitrary
in-range force write (see the counterexample) — any finite sequence of
nonzero spring-constant writes leaves the applied force unchanged after
every settle, only the displacement varying as `F/k`; on a
displacement-driven spring in a Hooke-consistent state (`F = k·x`, as every
changed write leaves it), symmetric: the displacement stays unchanged and
the applied force tracks `k·x`. -/
theorem C5_mode_invariance :
    (∀ (c : SpringCfg) (s s' : SpringState) (ops : List SOp),
      c.forceDriven = true → s.k ≠ 0 → s.x = s.F / s.k →
      c.constrainF (c.quantize s.F) = s.F →
      (∀ op ∈ ops, isKSetOp op = true) →
      runOps c ops s = some s' →
      s'.F = s.F ∧ s'.x = s'.F / s'.k) ∧
    (∀ (c : SpringCfg) (s s' : SpringState) (ops : List SOp),
      c.forceDriven = false → s.F = s.k * s.x →
      (∀ op ∈ ops, isKSetOp op = true) →
      runOps c ops s = some s' →
      s'.x = s.x ∧ s'.F = s'.k * s'.x) := by
  constructor
  · intro c s s' ops hfd
    induction ops generalizing s with
    | nil =>
        intro hk hx hst hv h
        simp only [runOps, Option.some.injEq] at h
        subst h
        exact ⟨rfl, hx⟩
    | cons op ops ih =>
        intro hk hx hst hv h
        simp only [runOps] at h
        have hvops : ∀ op ∈ ops, isKSetOp op = true := fun o ho =>
          hv o (List.mem_cons_of_mem _ ho)
        have hvop : isKSetOp op = true := hv op (List.mem_cons_self op ops)
        cases op with
        | setF v => simp [isKSetOp] at hvop
        | setX v => simp [isKSetOp] at hvop
        | setL v => simp [isKSetOp] at hvop
        | setK v =>
            have hv0 : v ≠ 0 := by simpa [isKSetOp] using hvop
            obtain ⟨x', heq, hcase⟩ :=
              sset_k_settle_fd c s v hfd (by rw [foD_fd c _ _ hfd hv0, hst])
            rw [show applyOp c (SOp.setK v) s =
              sset c 9 .springConstant v s from rfl, heq] at h
            have hx' : x' = s.F / v := by
              rcases hcase with ⟨hkk, hxx⟩ | hxx
              · rw [hxx, hx, hkk]
              · exact hxx
            have hrec := ih _ hv0 (by simpa using hx') (by simpa using hst)
              hvops h
            exact ⟨hrec.1, hrec.2⟩
  · intro c s s' ops hfd
    induction ops generalizing s with
    | nil =>
        intro hFkx hv h
        simp only [runOps, Option.some.injEq] at h
        subst h
        exact ⟨rfl, hFkx⟩
    | cons op ops ih =>
        intro hFkx hv h
        simp only [runOps] at h
        have hvops : ∀ op ∈ ops, isKSetOp op = true := fun o ho =>
          hv o (List.mem_cons_of_mem _ ho)
        have hvop : isKSetOp op = true := hv op (List.mem_cons_self op ops)
        cases op with
        | setF v => simp [isKSetOp] at hvop
        | setX v => simp [isKSetOp] at hvop
        | setL v => simp [isKSetOp] at hvop
        | setK v =>
            have hv0 : v ≠ 0 := by simpa [isKSetOp] using hvop
            obtain ⟨F', heq, hcase⟩ := sset_k_settle_dd c s v hfd hv0
            rw [show applyOp c (SOp.setK v) s =
              sset c 9 .springConstant v s from rfl, heq] at h
            have hF' : F' = v * s.x := by
              rcases hcase with ⟨hkk, hFF⟩ | hFF
              · rw [hFF, hFkx, hkk]
              · exact hFF
            have hrec := ih _ (by simpa using hF') hvops h
            exact ⟨hrec.1, hrec.2⟩

/-- C5, witness: on the settled intro spring holding `F = 10`, the writes
`k := 500; k := 250` leave the force at `10` and the displacement at
`10/250`. -/
theorem C5_witness :
    runOps introCfg [SOp.setK 500, SOp.setK 250] ⟨10, 200, 1/20, 0⟩ =
      some ⟨10, 250, 1/25, 0⟩ ∧
    (⟨10, 250, 1/25, 0⟩ : SpringState).F = (10 : ℚ) ∧
    (⟨10, 250, 1/25, 0⟩ : SpringState).x =
      (⟨10, 250, 1/25, 0⟩ : SpringState).F /
        (⟨10, 250, 1/25, 0⟩ : SpringState).k := by
  have h : runOps introCfg [SOp.setK 500, SOp.setK 250] ⟨10, 200, 1/20, 0⟩ =
      some ⟨10, 250, 1/25, 0⟩ := by
    with_unfolding_all decide
  have hc := C5_mode_invariance.1 introCfg ⟨10, 200, 1/20, 0⟩
    ⟨10, 250, 1/25, 0⟩ [SOp.setK 500, SOp.setK 250] rfl (by norm_num)
    (by norm_num) (by with_unfolding_all decide)
    (by with_unfolding_all decide) h
  exact ⟨h, hc.1, hc.2⟩

/-- C8, counterexample.  On the force-driven configuration `c8cfg`, whose
construction-supplied default applied force `1/2` is not a multiple of the
delta `1`, construction itself settles at `(F,k,x) = (1, 100, 1/100)`, and
`reset()` — with no intervening writes at all — settles at
`(1, 100, 1/200)`.  Under the reading "the value supplied at construction",
the applied force is not restored: it ends at `1`, not `1/2` (the reset
write `F := 1/2` is immediately re-quantized to `1`).  Under the reading
"the value held at the end of construction", the displacement is not
restored: it ends at `1/200`, not `1/100`.  Either way at least one primary
cell is not restored. -/
theorem C8_counterexample :
    springInit c8cfg = some ⟨1, 100, 1/100, 0⟩ ∧
    springReset c8cfg ⟨1, 100, 1/100, 0⟩ = some ⟨1, 100, 1/200, 0⟩ ∧
    c8cfg.Fdef = 1/2 ∧ ((1 : ℚ) ≠ 1/2) ∧ ((1 : ℚ)/200 ≠ 1/100) := by
  with_unfolding_all decide

/-- C8, amended.  `reset()` restores every primary cell to its
construction-time default from any state whatsoever (in particular after any
sequence of external writes), provided the configuration's default applied
force survives the quantize-and-clamp rewrite — true of every spring
constructed in this repository, whose default forces are `0` with delta `1`
(or the computed `kdef · xdef` inside the computed range in
displacement-driven mode). -/
theorem C8_amended :
    (∀ (c : SpringCfg) (s s' : SpringState),
      c.forceDriven = true → s.k ≠ 0 → c.kdef ≠ 0 →
      c.constrainF (c.quantize c.Fdef) = c.Fdef →
      c.xdef = c.Fdef / c.kdef →
      springReset c s = some s' →
      s' = ⟨c.Fdef, c.kdef, c.xdef, c.left0⟩) ∧
    (∀ (c : SpringCfg) (s s' : SpringState),
      c.forceDriven = false → s.k ≠ 0 → c.kdef ≠ 0 →
      c.Fdef = c.kdef * c.xdef → c.Fmin ≤ c.Fdef → c.Fdef ≤ c.Fmax →
      springReset c s = some s' →
      s' = ⟨c.Fdef, c.kdef, c.xdef, c.left0⟩) := by
  constructor
  · intro c s s' hfd hk hkd hstab hxdef h
    unfold springReset at h
    obtain ⟨x1, he1, -⟩ :=
      sset_F_settle c s c.Fdef (by rw [foD_fd c _ _ hfd hk, hstab])
    rw [he1, Option.some_bind] at h
    obtain ⟨x2, he2, -⟩ :=
      sset_k_settle_fd c ⟨c.Fdef, s.k, x1, s.left⟩ c.kdef hfd
        (by rw [show (⟨c.Fdef, s.k, x1, s.left⟩ : SpringState).F = c.Fdef
              from rfl, foD_fd c _ _ hfd hkd, hstab])
    rw [he2, Option.some_bind] at h
    have he3 := sset_x_settle c ⟨c.Fdef, c.kdef, x2, s.left⟩ c.xdef
      (by rw [show (⟨c.Fdef, c.kdef, x2, s.left⟩ : SpringState).k = c.kdef
            from rfl, hxdef, foD_fd c _ _ hfd hkd, hstab])
    rw [he3, Option.some_bind, sset_left_any] at h
    simp only [Option.some.injEq] at h
    exact h.symm
  · intro c s s' hfd hk hkd hdef h1 h2 h
    unfold springReset at h
    obtain ⟨x1, he1, -⟩ :=
      sset_F_settle c s c.Fdef
        (by rw [foD_dd c _ _ hfd hk, constrainF_id c _ h1 h2])
    rw [he1, Option.some_bind] at h
    obtain ⟨F2, he2, hc2⟩ :=
      sset_k_settle_dd c ⟨c.Fdef, s.k, x1, s.left⟩ c.kdef hfd hkd
    rw [he2, Option.some_bind] at h
    obtain ⟨F3, he3, hc3⟩ :=
      sset_x_settle_dd c ⟨F2, c.kdef, x1, s.left⟩ c.xdef hfd hkd
        (by rw [show c.kdef * c.xdef = c.Fdef from hdef.symm]
            exact constrainF_id c _ h1 h2)
    rw [he3, Option.some_bind, sset_left_any] at h
    simp only [Option.some.injEq] at h
    have hF3 : F3 = c.Fdef := by
      rcases hc3 with ⟨hx31, hF32⟩ | hF32
      · rcases hc2 with ⟨-, hF21⟩ | hF21
        · rw [hF32]
          exact hF21
        · rw [hF32, hF21]
          simp only at hx31
          rw [← hx31, ← hdef]
      · rw [hF32, ← hdef]
    rw [← h, hF3]
  
/-- C8, witness: the amended force-driven statement on the intro spring from
the settled state `(10, 500, 1/50)`: reset restores the construction
defaults `(0, 200, 0, 0)` exactly. -/
theorem C8_witness :
    springReset introCfg ⟨10, 500, 1/50, 0⟩ = some ⟨0, 200, 0, 0⟩ ∧
    (⟨0, 200, 0, 0⟩ : SpringState) =
      ⟨introCfg.Fdef, introCfg.kdef, introCfg.xdef, introCfg.left0⟩ := by
  have h : springReset introCfg ⟨10, 500, 1/50, 0⟩ = some ⟨0, 200, 0, 0⟩ := by
    with_unfolding_all decide
  refine ⟨h, ?_⟩
  exact C8_amended.1 introCfg ⟨10, 500, 1/50, 0⟩ ⟨0, 200, 0, 0⟩ rfl
    (by norm_num) (by norm_num [introCfg]) (by with_unfolding_all decide)
    (by norm_num [introCfg]) h
